import Mathlib

/-!
Verification of the generation-and-verification orchestrator of the
web_agent repository against its specification.

The development shallowly embeds the claim-relevant parts of the source:

* `GenerationPhase._classify_error_tier` and the dispatch in
  `GenerationPhase._apply_fix` (src/pipeline/phases/generation.py);
* the sanity checks `GenerationPhase._is_valid_sdk_code` and the
  acceptance logic of the implementation step in
  `GenerationPhase._process_task`;
* the Tier-2 backup/restore bracket around the autonomous repair agent
  (`_create_backup`, `_restore_backup`, the Tier-2 branch of `_apply_fix`);
* the plan-skip and implementation-skip logic of
  `GenerationPhase._process_task`;
* `SelectorRegistry.register` and `SelectorRegistry.get`
  (src/pipeline/contracts.py);
* `GoldenPathValidator._validate_steps` (src/pipeline/validators/golden_path.py);
* the `with_retry` wrapper (src/utils/__init__.py and src/utils.py, which
  implement the same attempt loop).

Python strings are embedded as `String`, machine-level file state as
explicit `String` values passed through the modelled operations, and
fallible calls as `Except`/`Option` results.
-/

namespace WebAgent

/-- The single-quote character (ASCII 39), written numerically. -/
def squote : Char := Char.ofNat 39

/-- The double-quote character (ASCII 34), written numerically. -/
def dquote : Char := Char.ofNat 34

/-- Substring occurrence on character lists: `listContainsSub hay needle`
is true iff `needle` occurs contiguously inside `hay`.  This embeds the
Python operator `needle in hay` on strings. -/
def listContainsSub : List Char → List Char → Bool
  | [], needle => needle.isEmpty
  | c :: rest, needle => needle.isPrefixOf (c :: rest) || listContainsSub rest needle

/-- Python substring test `needle in hay` for `String`. -/
def containsSub (hay needle : String) : Bool :=
  listContainsSub hay.toList needle.toList

/-- The Tier-1 pattern list of `GenerationPhase._classify_error_tier`. -/
def tier1_pattern_list : List String :=
  ["SyntaxError", "ReferenceError", "TypeError", "is not defined"]

/-- The Tier-2 pattern list of `GenerationPhase._classify_error_tier`. -/
def tier2_pattern_list : List String :=
  ["AssertionError", "Timeout", "Golden Path", "Integration", "Agent Validation"]

/-- Embedding of `GenerationPhase._classify_error_tier`: Tier-1 patterns
are checked first, then Tier-2 patterns, and unknown errors default to
Tier 2. -/
def classify_error_tier (error : String) : Nat :=
  if tier1_pattern_list.any (fun p => containsSub error p) then 1
  else if tier2_pattern_list.any (fun p => containsSub error p) then 2
  else 2

/-- The repair performed by one call of `GenerationPhase._apply_fix`:
a targeted backend fix, a controller fix, a frontend fix, no repair at
all, or the Tier-2 autonomous agent. -/
inductive FixAction where
  | backendFix
  | controllerFix
  | frontendFix
  | noFix
  | agentFix
deriving DecidableEq

/-- Embedding of the dispatch structure of `GenerationPhase._apply_fix`:
which repair is performed, as a function of the error text, the attempt
index, and whether a controller generator is configured.  Mirrors the
source conditionals line by line. -/
def apply_fix_action (error : String) (attempt : Nat) (has_controller_gen : Bool) : FixAction :=
  let tier := classify_error_tier error
  if tier = 1 ∨ (tier = 2 ∧ attempt = 0) then
    if containsSub error "Backend" = true ∨ tier = 1 then
      FixAction.backendFix
    else if containsSub error "Element not found" = true ∨ containsSub error "CSS" = true
        ∨ containsSub error "Timeout" = true then
      if has_controller_gen then FixAction.controllerFix else FixAction.frontendFix
    else
      FixAction.noFix
  else
    FixAction.agentFix

/-- Embedding of Python `str.strip()`: drop whitespace from both ends. -/
def python_strip (s : String) : String :=
  String.mk (((s.toList.dropWhile Char.isWhitespace).reverse.dropWhile Char.isWhitespace).reverse)

/-- The required structural markers of `GenerationPhase._is_valid_sdk_code`. -/
def sdk_required_pattern_list : List String :=
  ["WebsiteSDK", "window.", "class"]

/-- Embedding of `GenerationPhase._is_valid_sdk_code`: nonempty, at least
100 stripped characters, and all structural markers present. -/
def is_valid_sdk_code (code : String) : Bool :=
  if code = "" ∨ (python_strip code).length < 100 then false
  else sdk_required_pattern_list.all (fun p => containsSub code p)

/-- Outcome of one run of the Tier-2 autonomous repair agent, as observed
by `GenerationPhase._apply_fix`: the resolver returns a success boolean,
or the attempt raises an exception. -/
inductive AgentOutcome where
  | reportedSuccess
  | reportedFailure
  | raisedException
deriving DecidableEq

/-- Embedding of the Tier-2 branch of `GenerationPhase._apply_fix`
together with `_create_backup` / `_restore_backup`, tracking the on-disk
business-logic script.  `backup` is the script content snapshotted by
`_create_backup` immediately before the agent is invoked; `agent_script`
is the content the agent leaves on disk.  On a reported success the code
reloads the script and restores the backup when `_is_valid_sdk_code`
rejects it; on an exception it restores the backup; on a reported failure
it does neither check nor restore.  The result is the on-disk script
after the fix step. -/
def tier2_attempt (backup agent_script : String) (outcome : AgentOutcome) : String :=
  match outcome with
  | AgentOutcome.reportedSuccess =>
      if is_valid_sdk_code agent_script then agent_script else backup
  | AgentOutcome.reportedFailure => agent_script
  | AgentOutcome.raisedException => backup

/-- Embedding of the implementation-step acceptance in
`GenerationPhase._process_task` (step 3): the regenerated script is
accepted iff it is nonempty with more than 100 stripped characters;
otherwise the previous script is kept, except that a previous script
with fewer than 200 stripped characters is replaced by the fallback
template returned by `_get_full_logic_template` (passed here as
`full_template`; the source constant has far more than 200 characters). -/
def step3_update (old_code new_code full_template : String) : String :=
  if new_code ≠ "" ∧ 100 < (python_strip new_code).length then new_code
  else if (python_strip old_code).length < 200 then full_template
  else old_code

/-- Embedding of the Tier-1 backend-fix acceptance in
`GenerationPhase._apply_fix`: the fixed script replaces the previous one
only when `_is_valid_sdk_code` accepts it. -/
def tier1_backend_fix_update (old_code new_code : String) : String :=
  if is_valid_sdk_code new_code then new_code else old_code

/-- Embedding of the plan step of `GenerationPhase._process_task`
(step 2): when a plan file exists its content is used and no generation
runs; otherwise a plan is generated.  Returns the plan used and whether
generation ran. -/
def plan_step (existing_plan : Option String) (generated_plan : String) : String × Bool :=
  match existing_plan with
  | some p => (p, false)
  | none => (generated_plan, true)

/-- Embedding of the implementation-skip decision of
`GenerationPhase._process_task`: implementation is skipped only when a
plan file existed, the current script is nonempty with length over 500,
and verifying the existing code succeeds.  `verify_result` is
`some true` / `some false` for a verification verdict and `none` for an
exception raised while verifying. -/
def should_implement (plan_exists : Bool) (backend_code : String) (verify_result : Option Bool) : Bool :=
  if plan_exists = true ∧ backend_code ≠ "" ∧ 500 < backend_code.length then
    match verify_result with
    | some true => false
    | _ => true
  else true

/-- One element contract of src/pipeline/contracts.py. -/
structure ElementContract where
  element_type : String
  action : String
  page : String
  suggested_id : String
  description : String
deriving DecidableEq

/-- Characterwise embedding of the sanitization chain in
`SelectorRegistry.register`:
`action.replace` with single-character patterns (underscore and space to
hyphen, both quote characters removed) followed by `.lower()`.  Each
replace pattern is a single character, so the chain acts independently
on every character; `.lower()` is embedded by `Char.toLower`, the ASCII
lowercasing also performed by Python on this alphabet. -/
def sanitize_char (c : Char) : Option Char :=
  if c = '_' then some '-'
  else if c = ' ' then some '-'
  else if c = squote then none
  else if c = dquote then none
  else some c.toLower

/-- The sanitized action string of `SelectorRegistry.register`. -/
def sanitize_action (action : String) : String :=
  String.mk (action.toList.filterMap sanitize_char)

/-- Embedding of the `CONVENTIONS` table of `SelectorRegistry`: each
template is a fixed head followed by the sanitized action (for example
the template for a button produces btn- followed by the action), and the
default template is the sanitized action alone, i.e. the empty head. -/
def convention_head (element_type : String) : String :=
  if element_type = "button" then "btn-"
  else if element_type = "input" then "input-"
  else if element_type = "filter" then "filter-"
  else if element_type = "form" then "form-"
  else if element_type = "link" then "link-"
  else if element_type = "select" then "select-"
  else if element_type = "card" then "card-"
  else if element_type = "container" then "container-"
  else ""

/-- The identifier part (after the hash) of the selector built by
`SelectorRegistry.register`. -/
def full_selector_id (element_type action : String) : String :=
  convention_head element_type ++ sanitize_action action

/-- The full selector returned by `SelectorRegistry.register`. -/
def full_selector (element_type action : String) : String :=
  "#" ++ full_selector_id element_type action

/-- Python dict assignment on an association list: replace the value at
an existing key in place, otherwise append the new binding. -/
def dictInsert {β : Type} : List (String × β) → String → β → List (String × β)
  | [], k, v => [(k, v)]
  | (k2, v2) :: rest, k, v =>
      if k2 = k then (k, v) :: rest else (k2, v2) :: dictInsert rest k v

/-- Append a selector to a page list unless already present, as in the
`_by_page` update of `SelectorRegistry.register`. -/
def appendIfMissing (l : List String) (s : String) : List String :=
  if s ∈ l then l else l ++ [s]

/-- State of a `SelectorRegistry`: the `_registry` dict keyed by
`page:action`, and the `_by_page` dict of selector lists. -/
structure SelectorRegistry where
  registry : List (String × ElementContract)
  by_page : List (String × List String)

/-- The freshly constructed, empty `SelectorRegistry`. -/
def SelectorRegistry.empty : SelectorRegistry := ⟨[], []⟩

/-- Embedding of `SelectorRegistry.register`: build the selector from
the element type and the sanitized action, store the contract under the
key `page:action`, track the selector under the page, and return the
selector together with the updated registry state. -/
def SelectorRegistry.register (r : SelectorRegistry)
    (element_type action page description : String) : String × SelectorRegistry :=
  (full_selector element_type action,
   ⟨dictInsert r.registry (page ++ ":" ++ action)
      ⟨element_type, action, page, full_selector element_type action, description⟩,
    dictInsert r.by_page page
      (appendIfMissing ((r.by_page.lookup page).getD []) (full_selector element_type action))⟩)

/-- Embedding of `SelectorRegistry.get`: look up the contract stored
under `page:action` and return its selector. -/
def SelectorRegistry.get (r : SelectorRegistry) (action page : String) : Option String :=
  (r.registry.lookup (page ++ ":" ++ action)).map ElementContract.suggested_id

/-- First-character test, embedding the Python calls
`selector.startswith` with a one-character argument in
`GoldenPathValidator._validate_steps`. -/
def starts_with_char (s : String) (c : Char) : Bool :=
  match s.toList with
  | [] => false
  | c2 :: _ => c2 == c

/-- Embedding of Python `lstrip` over the two characters hash and dot:
drop every leading hash or dot. -/
def lstripHashDot (s : String) : String :=
  String.mk (s.toList.dropWhile (fun c => c == '#' || c == '.'))

/-- The fuzzy-match test of `GoldenPathValidator._validate_steps` for a
proposed `selector` against one trusted selector `v`: containment (in
either direction) of the names with leading hash/dot stripped, and both
selectors must be identifier selectors.  The source breaks out of its
scan at the first trusted selector passing this combined test. -/
def fuzzy_match_pred (selector v : String) : Bool :=
  ((containsSub (lstripHashDot v) (lstripHashDot selector)
      || containsSub (lstripHashDot selector) (lstripHashDot v))
    && starts_with_char v '#')
  && starts_with_char selector '#'

/-- Embedding of the per-step selector handling of
`GoldenPathValidator._validate_steps`: a selector in the trusted set is
kept; otherwise the first trusted selector passing the fuzzy-match test
replaces it; otherwise the selector is kept unchanged. -/
def validate_step_selector (valid_selectors : List String) (selector : String) : String :=
  if selector ∈ valid_selectors then selector
  else
    match valid_selectors.find? (fuzzy_match_pred selector) with
    | some v => v
    | none => selector

/-- One step of `_validate_steps`: a step without a selector (or with an
empty, hence falsy, selector) is passed through unchanged. -/
def validate_step (valid_selectors : List String) (sel : Option String) : Option String :=
  match sel with
  | none => none
  | some s => if s = "" then some s else some (validate_step_selector valid_selectors s)

/-- Embedding of `GoldenPathValidator._validate_steps` on the selector
fields of the steps: the source always reports the steps as fully valid
and returns the corrected list. -/
def validate_steps (valid_selectors : List String) (steps : List (Option String)) :
    Bool × List (Option String) :=
  (true, steps.map (validate_step valid_selectors))

/-- The attempt loop of `with_retry` (src/utils/__init__.py and
src/utils.py): `f i` is the result of the i-th invocation of the wrapped
function, `Except.error` an exception, `Except.ok none` a Python `None`
result (also retried), `Except.ok (some v)` a successful result.  The
second argument is the invocation index, the third the number of
attempts remaining.  Returns the reported result, the number of
invocations of the wrapped function, and the number of backoff sleeps
performed (the source sleeps exactly when further attempts remain). -/
def with_retry_loop {α : Type} (f : Nat → Except String (Option α)) :
    Nat → Nat → Option α × Nat × Nat
  | _, 0 => (none, 0, 0)
  | i, n + 1 =>
    match f i with
    | Except.ok (some v) => (some v, 1, 0)
    | Except.ok none =>
        ((with_retry_loop f (i + 1) n).1, (with_retry_loop f (i + 1) n).2.1 + 1,
          (with_retry_loop f (i + 1) n).2.2 + (if 0 < n then 1 else 0))
    | Except.error _ =>
        ((with_retry_loop f (i + 1) n).1, (with_retry_loop f (i + 1) n).2.1 + 1,
          (with_retry_loop f (i + 1) n).2.2 + (if 0 < n then 1 else 0))

/-- Embedding of a full `with_retry(max_retries, delay)` run: the loop
`for attempt in range(max_retries + 1)` starting at invocation 0.  The
wrapper reports failure by returning `none`. -/
def with_retry_run {α : Type} (max_retries : Nat) (f : Nat → Except String (Option α)) :
    Option α × Nat × Nat :=
  with_retry_loop f 0 (max_retries + 1)

/-- The safe identifier alphabet of the specification: the ASCII
characters valid in a CSS id selector (letters, digits, hyphen,
underscore).  This definition follows the words of the spec and is the
comparison point for the sanitization claim. -/
def css_id_safe_char (c : Char) : Bool :=
  decide ((97 ≤ c.toNat ∧ c.toNat ≤ 122) ∨ (65 ≤ c.toNat ∧ c.toNat ≤ 90)
    ∨ (48 ≤ c.toNat ∧ c.toNat ≤ 57) ∨ c = '-' ∨ c = '_')

/-- Input alphabet under which the sanitization of
`SelectorRegistry.register` is total: ASCII letters, digits, hyphen,
underscore, space, and the two quote characters. -/
def sanitizer_input_ok (c : Char) : Bool :=
  decide ((97 ≤ c.toNat ∧ c.toNat ≤ 122) ∨ (65 ≤ c.toNat ∧ c.toNat ≤ 90)
    ∨ (48 ≤ c.toNat ∧ c.toNat ≤ 57) ∨ c = '-' ∨ c = '_' ∨ c = ' '
    ∨ c = squote ∨ c = dquote)

/-! ## Helper lemmas -/

/-- The classifier only ever returns 1 or 2. -/
theorem classify_cases (e : String) :
    classify_error_tier e = 1 ∨ classify_error_tier e = 2 := by
  unfold classify_error_tier
  split_ifs <;> simp

/-- Looking up the key just inserted by `dictInsert` yields the inserted
value. -/
theorem lookup_dictInsert_self {β : Type} (l : List (String × β)) (k : String) (v : β) :
    (dictInsert l k v).lookup k = some v := by
  induction l with
  | nil => simp [dictInsert, List.lookup]
  | cons hd t ih =>
    obtain ⟨k2, v2⟩ := hd
    by_cases hk : k2 = k
    · simp [dictInsert, hk, List.lookup]
    · have hne : (k == k2) = false := by simp [Ne.symm hk]
      simp [dictInsert, hk, List.lookup, hne, ih]

/-- `Char.ofNat` below the surrogate range is faithful on `toNat`. -/
theorem ofNat_toNat_small (n : Nat) (h1 : n < 55296) : (Char.ofNat n).toNat = n := by
  unfold Char.ofNat
  split
  · rfl
  · rename_i h
    exact absurd (Or.inl h1) h

/-- `Char.toLower` either leaves a character (that is not an ASCII
capital) unchanged or produces an ASCII lowercase letter. -/
theorem toLower_lower_or_id (c : Char) :
    (c.toLower = c ∧ ¬(65 ≤ c.toNat ∧ c.toNat ≤ 90)) ∨
    (97 ≤ c.toLower.toNat ∧ c.toLower.toNat ≤ 122) := by
  unfold Char.toLower
  simp only []
  by_cases h : c.toNat ≥ 65 ∧ c.toNat ≤ 90
  · rw [if_pos h]
    right
    have := ofNat_toNat_small (c.toNat + 32) (by omega)
    omega
  · rw [if_neg h]
    left
    exact ⟨rfl, by omega⟩

/-- All characters of the convention heads are in the CSS-safe
alphabet. -/
theorem convention_head_safe (et : String) :
    ∀ c ∈ (convention_head et).toList, css_id_safe_char c = true := by
  unfold convention_head
  split_ifs <;> decide

/-- A string whose first character is a dot does not start with a
hash. -/
theorem starts_dot_not_hash (s : String) (h : starts_with_char s '.' = true) :
    starts_with_char s '#' = false := by
  unfold starts_with_char at h ⊢
  cases hs : s.toList with
  | nil => rw [hs] at h
  | cons c rest =>
    rw [hs] at h
    have hc : c = '.' := by simpa using h
    subst hc
    rfl

/-- When every invocation raises, the attempt loop of `with_retry` makes
exactly as many invocations as attempts remain, sleeping between
consecutive attempts, and ends with no result. -/
theorem retry_loop_all_raise {α : Type} (f : Nat → Except String (Option α))
    (h : ∀ i, ∃ e, f i = Except.error e) :
    ∀ n i, with_retry_loop f i (n + 1) = (none, n + 1, n) := by
  intro n
  induction n with
  | zero =>
    intro i
    obtain ⟨e, he⟩ := h i
    simp [with_retry_loop, he]
  | succ n ih =>
    intro i
    obtain ⟨e, he⟩ := h i
    rw [with_retry_loop, he]
    simp [ih (i + 1)]

/-! ## Claim theorems -/

/-- Claim C10 (confirmed): the failure-tier classifier is total with
Tier-1 precedence: every error string is classified 1 or 2; any string
containing a Tier-1 pattern is classified Tier 1 (even if it also
contains a Tier-2 pattern); a string containing no pattern from either
list defaults to Tier 2. -/
theorem classifier_total_with_tier1_precedence (e : String) :
    (classify_error_tier e = 1 ∨ classify_error_tier e = 2)
    ∧ (tier1_pattern_list.any (fun p => containsSub e p) = true → classify_error_tier e = 1)
    ∧ (tier1_pattern_list.any (fun p => containsSub e p) = false ∧
        tier2_pattern_list.any (fun p => containsSub e p) = false →
        classify_error_tier e = 2) := by
  refine ⟨classify_cases e, ?_, ?_⟩
  · intro h
    unfold classify_error_tier
    rw [if_pos h]
  · rintro ⟨h1, h2⟩
    unfold classify_error_tier
    rw [if_neg (by simp [h1]), if_neg (by simp [h2])]

/-- Witness for C10: a string containing both a Tier-1 pattern
(TypeError) and a Tier-2 pattern (Timeout) is classified Tier 1. -/
theorem classifier_total_with_tier1_precedence_witness :
    classify_error_tier "TypeError: x is undefined after Timeout" = 1 ∧
    containsSub "TypeError: x is undefined after Timeout" "Timeout" = true :=
  ⟨(classifier_total_with_tier1_precedence "TypeError: x is undefined after Timeout").2.1
      (by decide),
   by decide⟩

/-- Claim C5 (confirmed): calling `register` twice with the identical
(elementType, action, page) triple returns the identical selector both
times, for every prior registry state and every pair of descriptions. -/
theorem register_twice_identical_selector (r : SelectorRegistry) (et a p d d2 : String) :
    ((r.register et a p d).2.register et a p d2).1 = (r.register et a p d).1 := rfl

/-- Counterexample to claim C4: re-registering the pair
(action search, page index.html) with a different elementType returns a
different selector (input instead of button naming), and the selector
the registry exposes for the pair afterwards is the new one, so the
selector of an ElementContract is not fixed once created. -/
theorem reregistration_other_type_changes_selector :
    (SelectorRegistry.empty.register "button" "search" "index.html" "").1 = "#btn-search"
    ∧ ((SelectorRegistry.empty.register "button" "search" "index.html" "").2.register
        "input" "search" "index.html" "").1 = "#input-search"
    ∧ ((SelectorRegistry.empty.register "button" "search" "index.html" "").2.register
        "input" "search" "index.html" "").1
      ≠ (SelectorRegistry.empty.register "button" "search" "index.html" "").1
    ∧ (((SelectorRegistry.empty.register "button" "search" "index.html" "").2.register
        "input" "search" "index.html" "").2.get "search" "index.html")
      = some "#input-search" := by decide

/-- Claim C4 (corrected): re-registration of an (action, page) pair with
the same elementType returns the same selector as the first
registration; a re-registration with a possibly different elementType
overwrites the stored contract, and the selector the registry exposes
for the pair is always the one of the most recent registration. -/
theorem reregistration_same_type_stable_and_latest_wins
    (r : SelectorRegistry) (et et2 a p d d2 : String) :
    ((r.register et a p d).2.register et a p d2).1 = (r.register et a p d).1
    ∧ ((r.register et a p d).2.register et2 a p d2).2.get a p
        = some (((r.register et a p d).2.register et2 a p d2).1) := by
  constructor
  · rfl
  · simp [SelectorRegistry.register, SelectorRegistry.get, lookup_dictInsert_self]

/-- Counterexample to claim C6: an error text containing the Tier-2
pattern Golden Path is classified Tier 2, yet on the first fix attempt
the repair applied is not the Tier-2 agent (with or without a controller
generator configured), so the repair applied in the FIXING state is not
always the one of the classified tier. -/
theorem tier2_error_first_attempt_no_agent :
    classify_error_tier "Golden Path: step 2 failed" = 2
    ∧ apply_fix_action "Golden Path: step 2 failed" 0 true ≠ FixAction.agentFix
    ∧ apply_fix_action "Golden Path: step 2 failed" 0 false ≠ FixAction.agentFix := by decide

/-- Claim C6 (corrected): text containing SyntaxError is classified
Tier 1; text containing Golden Path or Timeout and no Tier-1 pattern is
classified Tier 2; a Tier-1-classified error always receives the Tier-1
targeted backend repair; but the Tier-2 agent repair is applied exactly
when the classified tier is 2 and the attempt index is nonzero — on
attempt 0 a Tier-2-classified error receives a Tier-1-style repair (or
none). -/
theorem fix_dispatch_policy (e : String) (a : Nat) (g : Bool) :
    (containsSub e "SyntaxError" = true → classify_error_tier e = 1)
    ∧ ((containsSub e "Golden Path" = true ∨ containsSub e "Timeout" = true) →
        tier1_pattern_list.any (fun p => containsSub e p) = false →
        classify_error_tier e = 2)
    ∧ (classify_error_tier e = 1 → apply_fix_action e a g = FixAction.backendFix)
    ∧ (apply_fix_action e a g = FixAction.agentFix ↔ classify_error_tier e = 2 ∧ a ≠ 0) := by
  refine ⟨?_, ?_, ?_, ?_⟩
  · intro h
    have h2 : tier1_pattern_list.any (fun p => containsSub e p) = true := by
      simp [tier1_pattern_list]
      exact Or.inl h
    unfold classify_error_tier
    rw [if_pos h2]
  · intro _ h1
    unfold classify_error_tier
    rw [if_neg (by simp [h1])]
    split_ifs <;> rfl
  · intro h
    simp [apply_fix_action, h]
  · constructor
    · intro h
      by_cases hc : classify_error_tier e = 1 ∨ (classify_error_tier e = 2 ∧ a = 0)
      · exfalso
        unfold apply_fix_action at h
        rw [if_pos hc] at h
        split_ifs at h
      · rcases classify_cases e with h1 | h2
        · exact absurd (Or.inl h1) hc
        · exact ⟨h2, fun ha => hc (Or.inr ⟨h2, ha⟩)⟩
    · rintro ⟨h2, ha⟩
      unfold apply_fix_action
      rw [if_neg (by simp [h2, ha])]

/-- Witness for C6: a SyntaxError text is classified Tier 1 and receives
the backend repair; a Golden Path failure on the second attempt receives
the Tier-2 agent repair. -/
theorem fix_dispatch_policy_witness :
    classify_error_tier "SyntaxError: unexpected token" = 1
    ∧ apply_fix_action "SyntaxError: unexpected token" 0 true = FixAction.backendFix
    ∧ apply_fix_action "Golden Path: evaluator reported failure" 1 true = FixAction.agentFix :=
  ⟨(fix_dispatch_policy "SyntaxError: unexpected token" 0 true).1 (by decide),
   (fix_dispatch_policy "SyntaxError: unexpected token" 0 true).2.2.1 (by decide),
   (fix_dispatch_policy "Golden Path: evaluator reported failure" 1 true).2.2.2.mpr
     ⟨by decide, by decide⟩⟩

/-- Claim C7 (confirmed): in the golden-path selector repair pass, a
class selector is never rewritten; and a proposed identifier selector
absent from the trusted set that stands in containment relation (of the
stripped names) with some trusted identifier selector is rewritten to a
trusted identifier selector standing in that containment relation. -/
theorem golden_path_repair_id_substitution_only (valids : List String) (sel : String) :
    (starts_with_char sel '.' = true → validate_step_selector valids sel = sel)
    ∧ (sel ∉ valids → starts_with_char sel '#' = true →
        ∀ v ∈ valids, starts_with_char v '#' = true →
          (containsSub (lstripHashDot v) (lstripHashDot sel) = true
            ∨ containsSub (lstripHashDot sel) (lstripHashDot v) = true) →
          ∃ w ∈ valids, starts_with_char w '#' = true
            ∧ (containsSub (lstripHashDot w) (lstripHashDot sel) = true
              ∨ containsSub (lstripHashDot sel) (lstripHashDot w) = true)
            ∧ validate_step_selector valids sel = w) := by
  constructor
  · intro h
    unfold validate_step_selector
    by_cases hm : sel ∈ valids
    · rw [if_pos hm]
    · rw [if_neg hm]
      have hnone : valids.find? (fuzzy_match_pred sel) = none := by
        rw [List.find?_eq_none]
        intro v _
        unfold fuzzy_match_pred
        rw [starts_dot_not_hash sel h]
        simp
      rw [hnone]
  · intro hnm hs v hv hvh hcont
    have hsome : (valids.find? (fuzzy_match_pred sel)).isSome := by
      rw [List.find?_isSome]
      refine ⟨v, hv, ?_⟩
      unfold fuzzy_match_pred
      rw [hs, hvh]
      rcases hcont with hc | hc <;> rw [hc] <;> simp
    obtain ⟨w, hw⟩ := Option.isSome_iff_exists.mp hsome
    have hpred := List.find?_some hw
    have hmem := List.mem_of_find?_eq_some hw
    unfold fuzzy_match_pred at hpred
    simp only [Bool.and_eq_true, Bool.or_eq_true] at hpred
    refine ⟨w, hmem, hpred.1.2, hpred.1.1, ?_⟩
    unfold validate_step_selector
    rw [if_neg hnm, hw]

/-- Witness for C7: with trusted set [#task-title], the proposed
selector #title is rewritten to #task-title while .some-class stays
unchanged. -/
theorem golden_path_repair_id_substitution_only_witness :
    validate_step_selector ["#task-title"] ".some-class" = ".some-class"
    ∧ (∃ w ∈ ["#task-title"], starts_with_char w '#' = true
        ∧ (containsSub (lstripHashDot w) (lstripHashDot "#title") = true
          ∨ containsSub (lstripHashDot "#title") (lstripHashDot w) = true)
        ∧ validate_step_selector ["#task-title"] "#title" = w) :=
  ⟨(golden_path_repair_id_substitution_only ["#task-title"] ".some-class").1 (by decide),
   (golden_path_repair_id_substitution_only ["#task-title"] "#title").2
     (by decide) (by decide) "#task-title" (by decide) (by decide) (Or.inl (by decide))⟩

/-- Claim C8 (confirmed): a wrapped call whose underlying function
raises on every invocation is invoked exactly maxRetries + 1 times, with
a backoff sleep between consecutive attempts (maxRetries sleeps), before
the wrapper reports failure (returns none) to its caller. -/
theorem retry_always_raising_attempt_count {α : Type} (m : Nat)
    (f : Nat → Except String (Option α)) (h : ∀ i, ∃ e, f i = Except.error e) :
    with_retry_run m f = (none, m + 1, m) :=
  retry_loop_all_raise f h m 0

/-- Witness for C8: with maxRetries 3 and an always-raising function the
wrapper returns none after exactly 4 invocations and 3 backoff sleeps. -/
theorem retry_always_raising_attempt_count_witness :
    with_retry_run 3 (fun _ => (Except.error "backend down" : Except String (Option String)))
      = (none, 4, 3) :=
  retry_always_raising_attempt_count 3 _ (fun _ => ⟨"backend down", rfl⟩)

/-- Counterexample to claim C1: a Tier-2 attempt whose agent reports
failure performs no sanity re-check and no restore, so a broken script
left by the agent stays on disk and differs from the pre-attempt
backup. -/
theorem tier2_failure_report_leaves_broken_script :
    is_valid_sdk_code "broken output" = false
    ∧ tier2_attempt "original script text" "broken output" AgentOutcome.reportedFailure
        = "broken output"
    ∧ "broken output" ≠ "original script text" := by decide

/-- Claim C1 (corrected): after a Tier-2 attempt, the backup is restored
exactly when the agent reports success and the reloaded script fails the
sanity check, or when the attempt raises an exception; when the agent
reports failure the on-disk script is left exactly as the agent left
it, without any sanity re-check. -/
theorem tier2_restore_policy (backup agent_script : String) :
    (is_valid_sdk_code agent_script = false →
        tier2_attempt backup agent_script AgentOutcome.reportedSuccess = backup)
    ∧ (is_valid_sdk_code agent_script = true →
        tier2_attempt backup agent_script AgentOutcome.reportedSuccess = agent_script)
    ∧ tier2_attempt backup agent_script AgentOutcome.raisedException = backup
    ∧ tier2_attempt backup agent_script AgentOutcome.reportedFailure = agent_script := by
  refine ⟨?_, ?_, rfl, rfl⟩
  · intro h
    simp [tier2_attempt, h]
  · intro h
    simp [tier2_attempt, h]

/-- Witness for C1 (amended): a reported success with a script failing
the sanity check restores the backup. -/
theorem tier2_restore_policy_witness :
    tier2_attempt "original script text" "broken output" AgentOutcome.reportedSuccess
      = "original script text" :=
  (tier2_restore_policy "original script text" "broken output").1 (by decide)

set_option maxRecDepth 8192 in
/-- Counterexample to claim C2: with an existing plan file and an
existing 600-character script that fails the newly generated tests
(verification verdict false), plan generation is still skipped and the
stale plan is used; only the implementation step reacts to the failed
verification. -/
theorem plan_skip_ignores_failing_tests :
    (plan_step (some "stale plan") "fresh plan").2 = false
    ∧ (plan_step (some "stale plan") "fresh plan").1 = "stale plan"
    ∧ should_implement true (String.mk (List.replicate 600 'x')) (some false) = true := by
  refine ⟨rfl, rfl, ?_⟩
  unfold should_implement
  rw [if_pos ⟨rfl, by decide, by decide⟩]

/-- Claim C2 (corrected): in the AWAITING_PLAN step, plan generation is
skipped if and only if a plan file for the task exists — regardless of
whether the current script passes the new tests; the verify-before-skip
gates the implementation step instead: implementation is skipped iff a
plan file existed, the current script is nonempty with more than 500
characters, and verification of the existing code succeeds. -/
theorem plan_skip_and_implement_skip_conditions
    (ep : Option String) (gp code : String) (v : Option Bool) :
    ((plan_step ep gp).2 = false ↔ ep.isSome = true)
    ∧ (should_implement ep.isSome code v = false ↔
        (ep.isSome = true ∧ code ≠ "" ∧ 500 < code.length ∧ v = some true)) := by
  constructor
  · cases ep <;> simp [plan_step]
  · unfold should_implement
    by_cases hc : ep.isSome = true ∧ code ≠ "" ∧ 500 < code.length
    · rw [if_pos hc]
      rcases v with _ | b
      · simp [hc]
      · cases b <;> simp [hc]
    · rw [if_neg hc]
      constructor
      · intro h
        exact absurd h (by decide)
      · rintro ⟨h1, h2, h3, _⟩
        exact absurd ⟨h1, h2, h3⟩ hc

set_option maxRecDepth 8192 in
/-- Counterexample to claim C3: in the implementation step a regenerated
script of 150 characters containing none of the required structural
markers (in particular no WebsiteSDK attachment) is accepted and
replaces the previous script — acceptance there checks only a minimum
length, not structural markers. -/
theorem implementation_accepts_markerless_script :
    containsSub (String.mk (List.replicate 150 'a')) "WebsiteSDK" = false
    ∧ step3_update "previous script" (String.mk (List.replicate 150 'a')) "fallback template"
        = String.mk (List.replicate 150 'a')
    ∧ String.mk (List.replicate 150 'a') ≠ "previous script" := by decide

/-- Claim C3 (corrected): in the implementation step, acceptance of the
regenerated script is gated only by a minimum-length check (nonempty and
more than 100 stripped characters); on failure the previous script is
kept only when it has at least 200 stripped characters, and is otherwise
replaced by the fallback template; the structural-marker sanity check
gates the Tier-1 backend fix path, where a rejected fix does preserve
the previous script. -/
theorem implementation_acceptance_policy (old_code new_code tmpl : String) :
    (new_code ≠ "" ∧ 100 < (python_strip new_code).length →
        step3_update old_code new_code tmpl = new_code)
    ∧ (¬(new_code ≠ "" ∧ 100 < (python_strip new_code).length) →
        200 ≤ (python_strip old_code).length →
        step3_update old_code new_code tmpl = old_code)
    ∧ (¬(new_code ≠ "" ∧ 100 < (python_strip new_code).length) →
        (python_strip old_code).length < 200 →
        step3_update old_code new_code tmpl = tmpl)
    ∧ (is_valid_sdk_code new_code = false →
        tier1_backend_fix_update old_code new_code = old_code) := by
  refine ⟨?_, ?_, ?_, ?_⟩
  · intro h
    unfold step3_update
    rw [if_pos h]
  · intro h h2
    unfold step3_update
    rw [if_neg h, if_neg (by omega)]
  · intro h h2
    unfold step3_update
    rw [if_neg h, if_pos h2]
  · intro h
    unfold tier1_backend_fix_update
    rw [if_neg (by simp [h])]

set_option maxRecDepth 8192 in
/-- Witness for C3 (amended): a 150-character regenerated script is
accepted by the length-only gate, and a short Tier-1 fix output is
rejected, preserving the previous script. -/
theorem implementation_acceptance_policy_witness :
    step3_update "prev" (String.mk (List.replicate 150 'a')) "tmpl"
      = String.mk (List.replicate 150 'a')
    ∧ tier1_backend_fix_update "prev" "short" = "prev" :=
  ⟨(implementation_acceptance_policy "prev" (String.mk (List.replicate 150 'a')) "tmpl").1
      ⟨by decide, by decide⟩,
   (implementation_acceptance_policy "prev" "short" "tmpl").2.2.2 (by decide)⟩

/-- Counterexample to claim C9: the action a.b yields the selector
with identifier btn-a.b, whose dot is not in the safe identifier
alphabet (it is invalid in a CSS id selector), because the sanitization
only handles spaces, quotes and underscores. -/
theorem selector_keeps_css_invalid_chars :
    (SelectorRegistry.empty.register "button" "a.b" "page.html" "").1 = "#btn-a.b"
    ∧ ((full_selector_id "button" "a.b").toList.all css_id_safe_char) = false := by decide

/-- Claim C9 (corrected): the selector returned by `register` is a pure
function of elementType and action (independent of registry state, page
and description), of the form hash followed by the identifier; and
whenever the action consists of letters, digits, hyphens, underscores,
spaces and quote characters, every character of the identifier is in the
safe CSS-identifier alphabet — but characters outside that input set
(for example a dot) pass through the sanitization unchanged. -/
theorem selector_purity_and_sanitization (r : SelectorRegistry) (et a p d : String) :
    ((r.register et a p d).1 = full_selector et a)
    ∧ (full_selector et a = "#" ++ full_selector_id et a)
    ∧ ((∀ c ∈ a.toList, sanitizer_input_ok c = true) →
        ∀ c ∈ (full_selector_id et a).toList, css_id_safe_char c = true) := by
  refine ⟨rfl, rfl, ?_⟩
  intro h c hc
  have hsplit : (full_selector_id et a).toList
      = (convention_head et).toList ++ (sanitize_action a).toList := by
    simp [full_selector_id, String.toList, String.data_append]
  rw [hsplit] at hc
  rcases List.mem_append.mp hc with hc1 | hc2
  · exact convention_head_safe et c hc1
  · have hmem : c ∈ a.toList.filterMap sanitize_char := by
      simpa [sanitize_action, String.toList] using hc2
    obtain ⟨a0, ha0, hs⟩ := List.mem_filterMap.mp hmem
    have hok := h a0 ha0
    unfold sanitize_char at hs
    split_ifs at hs with h1 h2 h3 h4
    · obtain rfl : ('-' : Char) = c := Option.some.inj hs
      decide
    · obtain rfl : ('-' : Char) = c := Option.some.inj hs
      decide
    · obtain rfl : a0.toLower = c := Option.some.inj hs
      simp only [sanitizer_input_ok, decide_eq_true_eq] at hok
      simp only [css_id_safe_char, decide_eq_true_eq]
      rcases toLower_lower_or_id a0 with ⟨hid, hnup⟩ | hrange
      · rw [hid]
        rcases hok with hr | hr | hr | hr | hr | hr | hr | hr
        · exact Or.inl hr
        · exact absurd hr hnup
        · exact Or.inr (Or.inr (Or.inl hr))
        · exact Or.inr (Or.inr (Or.inr (Or.inl hr)))
        · exact Or.inr (Or.inr (Or.inr (Or.inr hr)))
        · exact absurd hr h2
        · exact absurd hr h3
        · exact absurd hr h4
      · exact Or.inl hrange

/-- Witness for C9 (amended): the identifier generated for the action
Add Item_2 on a button consists only of safe characters. -/
theorem selector_purity_and_sanitization_witness :
    (full_selector_id "button" "Add Item_2").toList.all css_id_safe_char = true := by
  rw [List.all_eq_true]
  exact fun c hc =>
    (selector_purity_and_sanitization SelectorRegistry.empty "button" "Add Item_2" "p" "").2.2
      (by decide) c hc

end WebAgent
